import Mathlib

/-!
Shallow embedding of the marker synchronization core of the Geomaticx-SV
application (src/utils/sync.ts together with the marker mutation handlers of
src/app/(tabs)/map.tsx), and theorems settling the specification claims
about it.

Modelling conventions:
* JavaScript numbers that are only stored, compared with `>=`/`<` or
  printed (marker ids, connection counts, HTTP status codes, coordinates)
  are modelled as `Int`; no fractional arithmetic occurs anywhere in the
  embedded code paths.
* `async` functions that can `throw` are modelled as `Except String α`
  with the thrown `Error.message` as the `String`.
* The ambient effects (file system, JSON parser, clock, platform, network,
  key-value storage) are gathered in a `World` record of pure functions;
  every embedded function takes the `World` explicitly.
* The event emitter is modelled by returning the ordered list of emitted
  events alongside the result.
-/

/-- JavaScript truthiness of a `string | null` value: `null` and the empty
string are falsy, every other string is truthy. -/
def jsTruthy : Option String → Bool
  | none => false
  | some s => !(s == "")

/-- `haystack.includes(needle)` on JavaScript strings: `needle` occurs as a
contiguous substring of `haystack`. -/
def strIncludes (haystack needle : String) : Bool :=
  go haystack.toList
where
  go : List Char → Bool
    | [] => needle.toList.isEmpty
    | c :: rest => needle.toList.isPrefixOf (c :: rest) || go rest

/-- `coordinate: {latitude, longitude}` of `MarkerData` (sync.ts lines 10-13). -/
structure Coordinate where
  latitude : Int
  longitude : Int
deriving DecidableEq, Repr

/-- `MarkerData` (sync.ts lines 8-18).  `centerPollImage : string | null` is
an `Option String`. -/
structure MarkerData where
  id : Int
  coordinate : Coordinate
  centerPollImage : Option String
  connectionImages : List String
  connectionCount : Int
  isComplete : Bool
deriving DecidableEq, Repr

/-- `timestamp` block of the sidecar `ImageMetadata` (imageCapture.ts).  The
JSON sidecar is untyped at runtime, so every field read through an optional
chain is an `Option`. -/
structure TimestampMeta where
  utc : Option String
deriving DecidableEq, Repr

/-- `sensors.compass` block of the sidecar metadata.  The repository carries
two revisions of the `SensorData` interface: one stores the compass reading
as `magneticNorth` (imageCapture.ts lines 7-22), the other as `heading`
(imageCapture.ts lines 222-236).  The parsed JSON may carry either field, so
both are modelled as optional. -/
structure CompassMeta where
  magneticNorth : Option Int
  heading : Option Int
deriving DecidableEq, Repr

/-- `sensors` block of the sidecar metadata. -/
structure SensorsMeta where
  compass : Option CompassMeta
deriving DecidableEq, Repr

/-- `device` block of the sidecar metadata. -/
structure DeviceMeta where
  model : Option String
  platform : Option String
deriving DecidableEq, Repr

/-- The part of the sidecar `ImageMetadata` that sync.ts actually reads
through optional chains (`metadata?.sensors?.compass?...`,
`metadata?.timestamp?.utc`, `metadata?.device?...`). -/
structure ImageMetadata where
  timestamp : Option TimestampMeta
  sensors : Option SensorsMeta
  device : Option DeviceMeta
deriving DecidableEq, Repr

/-- `deviceInfo` of a packaged image (sync.ts lines 104-107, 130-133). -/
structure DeviceInfo where
  model : String
  manufacturer : String
deriving DecidableEq, Repr

/-- `imageProperties` of a packaged image (sync.ts lines 108-112, 134-138). -/
structure ImageProperties where
  width : Int
  height : Int
  format : String
deriving DecidableEq, Repr

/-- A `branchImages` entry built by `convertMarkerToUploadFormat`
(sync.ts lines 100-114). -/
structure PackagedImage where
  url : String
  heading : Int
  timestamp : String
  deviceInfo : DeviceInfo
  imageProperties : ImageProperties
  metadata : Option ImageMetadata
deriving DecidableEq, Repr

/-- The `metadata` field of the `centerPole` object: the raw sidecar
metadata when one was read, otherwise the stub
`{ timestamp: new Date().toISOString() }` (sync.ts line 129). -/
inductive CenterMetadata where
  | raw (m : ImageMetadata)
  | stub (timestamp : String)
deriving DecidableEq, Repr

/-- The `centerPole` object of the upload payload (sync.ts lines 127-139). -/
structure CenterPole where
  url : String
  metadata : CenterMetadata
  deviceInfo : DeviceInfo
  imageProperties : ImageProperties
deriving DecidableEq, Repr

/-- The upload payload built by `convertMarkerToUploadFormat`
(sync.ts lines 123-141). -/
structure UploadPayload where
  markerId : String
  timestamp : String
  location : Coordinate
  centerPole : Option CenterPole
  branchImages : List PackagedImage
deriving DecidableEq, Repr

/-- A `fetch` response as consumed by `uploadMarkerData`: `ok` is the 2xx
flag, `status` the HTTP status code, `body` the text the (single)
`response.text()` call yields. -/
structure HttpResponse where
  ok : Bool
  status : Int
  body : String
deriving DecidableEq, Repr

/-- The ambient effects of the sync pipeline, as pure functions:
`platformOS` is `Platform.OS`; `getItem` is
`AsyncStorage.getItem(STORAGE_KEY)` (throw, or the stored string or null);
`parseMarkers` is `JSON.parse` specialised to the stored marker array
(throw, or the array); `fileExists` is `FileSystem.getInfoAsync(uri).exists`;
`readFile` is `FileSystem.readAsStringAsync` (throw, or contents — for image
files the contents stand for the base64 text); `parseJson` is `JSON.parse`
on a sidecar metadata file (throw, or the parsed metadata); `now` is the
value of `new Date().toISOString()`; `fetch` maps the posted payload to the
response (or a thrown network error). -/
structure World where
  platformOS : String
  getItem : Except String (Option String)
  parseMarkers : String → Except String (List MarkerData)
  fileExists : String → Bool
  readFile : String → Except String String
  parseJson : String → Except String ImageMetadata
  now : String
  fetch : UploadPayload → Except String HttpResponse

/-- `fileToBase64` (sync.ts lines 25-51): fail when the file does not
exist, fail when the read throws or yields a falsy (empty) string, else
prefix the base64 text with the data-URI marker. -/
def fileToBase64 (w : World) (uri : String) : Except String String :=
  if !(w.fileExists uri) then
    .error ("File does not exist: " ++ uri)
  else
    match w.readFile uri with
    | .error e => .error e
    | .ok base64 =>
      if base64 == "" then .error "Failed to read file as base64"
      else .ok ("data:image/jpeg;base64," ++ base64)

/-- The sidecar read shared by the center-pole and branch-image paths
(sync.ts lines 67-72 and 92-97): look for `uri + ".json"`; when absent
yield no metadata; when present, a failing read or a `JSON.parse` throw
propagates as an error. -/
def readSidecar (w : World) (uri : String) : Except String (Option ImageMetadata) :=
  let metadataUri := uri ++ ".json"
  if w.fileExists metadataUri then
    match w.readFile metadataUri with
    | .error e => .error e
    | .ok content =>
      match w.parseJson content with
      | .error e => .error e
      | .ok m => .ok (some m)
  else
    .ok none

/-- Platform default used for `deviceInfo.model`
(`Platform.OS === 'ios' ? 'iOS' : 'Android'`, sync.ts lines 105, 131). -/
def platformModel (w : World) : String :=
  if w.platformOS == "ios" then "iOS" else "Android"

/-- The body of the `marker.connectionImages.map` callback packaging one
branch image (sync.ts lines 85-120): read the image, opportunistically read
the sidecar, and build the branch entry; any throw inside is re-wrapped as
`Failed to convert branch image <index+1>: <message>`. -/
def packBranchImage (w : World) (img : String) (index : Nat) : Except String PackagedImage :=
  match fileToBase64 w img with
  | .error e => .error ("Failed to convert branch image " ++ toString (index + 1) ++ ": " ++ e)
  | .ok base64 =>
    match readSidecar w img with
    | .error e => .error ("Failed to convert branch image " ++ toString (index + 1) ++ ": " ++ e)
    | .ok metadata =>
      .ok {
        url := base64
        heading := (((metadata.bind (·.sensors)).bind (·.compass)).bind (·.magneticNorth)).getD 0
        timestamp := ((metadata.bind (·.timestamp)).bind (·.utc)).getD w.now
        deviceInfo := {
          model := ((metadata.bind (·.device)).bind (·.model)).getD (platformModel w)
          manufacturer := ((metadata.bind (·.device)).bind (·.platform)).getD "Unknown" }
        imageProperties := { width := 4032, height := 3024, format := "jpeg" }
        metadata := metadata }

/-- `Promise.all` over the branch-image packagings (sync.ts lines 84-121),
collected in index order; a rejection of any entry rejects the whole batch
(the sequential model surfaces the lowest-index error; no claim depends on
which of several errors is reported). -/
def packBranchImages (w : World) (imgs : List String) (index : Nat) : Except String (List PackagedImage) :=
  match imgs with
  | [] => .ok []
  | img :: rest =>
    match packBranchImage w img index with
    | .error e => .error e
    | .ok p =>
      match packBranchImages w rest (index + 1) with
      | .error e => .error e
      | .ok ps => .ok (p :: ps)

/-- The center-pole `try` block (sync.ts lines 61-79), entered only when
`marker.centerPollImage` is truthy: read the image and opportunistically the
sidecar; any throw is re-wrapped as
`Failed to convert center poll image: <message>`. -/
def processCenterImage (w : World) (uri : String) : Except String (String × Option ImageMetadata) :=
  match fileToBase64 w uri with
  | .error e => .error ("Failed to convert center poll image: " ++ e)
  | .ok b =>
    match readSidecar w uri with
    | .error e => .error ("Failed to convert center poll image: " ++ e)
    | .ok m => .ok (b, m)

/-- `convertMarkerToUploadFormat` (sync.ts lines 54-142). -/
def convertMarkerToUploadFormat (w : World) (marker : MarkerData) : Except String UploadPayload :=
  let centerStep : Except String (Option String × Option ImageMetadata) :=
    if jsTruthy marker.centerPollImage then
      match processCenterImage w (marker.centerPollImage.getD "") with
      | .error e => .error e
      | .ok (b, m) => .ok (some b, m)
    else
      .ok (none, none)
  match centerStep with
  | .error e => .error e
  | .ok (centerPoleBase64, centerPoleMetadata) =>
    match packBranchImages w marker.connectionImages 0 with
    | .error e => .error e
    | .ok branchImagesBase64 =>
      .ok {
        markerId := "marker_" ++ toString marker.id
        timestamp := w.now
        location := marker.coordinate
        centerPole :=
          match centerPoleBase64 with
          | some b =>
            some {
              url := b
              metadata :=
                match centerPoleMetadata with
                | some m => CenterMetadata.raw m
                | none => CenterMetadata.stub w.now
              deviceInfo := {
                model := ((centerPoleMetadata.bind (·.device)).bind (·.model)).getD (platformModel w)
                manufacturer := ((centerPoleMetadata.bind (·.device)).bind (·.platform)).getD "Unknown" }
              imageProperties := { width := 4032, height := 3024, format := "jpeg" } }
          | none => none
        branchImages := branchImagesBase64 }

/-- `uploadMarkerData` (sync.ts lines 144-185): build the payload, POST it,
treat a non-2xx status as a throw, and on a 2xx response return whether the
body contains the `✅` success indicator.  The surrounding `catch` rewrites
errors whose message contains `Network request failed` and re-throws
everything else unchanged. -/
def uploadMarkerData (w : World) (data : MarkerData) : Except String Bool :=
  let attempt : Except String Bool :=
    match convertMarkerToUploadFormat w data with
    | .error e => .error e
    | .ok uploadData =>
      match w.fetch uploadData with
      | .error e => .error e
      | .ok response =>
        if !response.ok then
          .error ("HTTP error! status: " ++ toString response.status ++ "\n" ++ response.body)
        else
          .ok (strIncludes response.body "✅")
  match attempt with
  | .ok b => .ok b
  | .error e =>
    if strIncludes e "Network request failed" then
      .error "Network error: Check your internet connection"
    else
      .error e

/-- An event emitted on the `eventEmitter` bus during a sync pass
(events.ts: `SYNC_START`, `SYNC_PROGRESS {current, total}`,
`SYNC_COMPLETE`, `SYNC_ERROR {message}`). -/
inductive SyncEvent where
  | start
  | progress (current total : Nat)
  | complete
  | error (message : String)
deriving DecidableEq, Repr

/-- An entry of the `failures` array of `syncAllMarkers`
(sync.ts line 219): `{ markerId, error }`. -/
structure SyncFailure where
  markerId : Int
  error : String
deriving DecidableEq, Repr

/-- The body of the per-marker `try` block inside the batch loop
(sync.ts lines 226-241, without the progress emission): throw when the
precondition fails (`!marker.centerPollImage ||
connectionImages.length < connectionCount`), otherwise upload; the boolean
result of `uploadMarkerData` is awaited but discarded (sync.ts line 233). -/
def processMarker (w : World) (marker : MarkerData) : Except String Unit :=
  if !(jsTruthy marker.centerPollImage)
      || decide ((marker.connectionImages.length : Int) < marker.connectionCount) then
    .error "Marker is missing required images"
  else
    match uploadMarkerData w marker with
    | .error e => .error e
    | .ok _ => .ok ()

/-- The `for` loop of `syncAllMarkers` (sync.ts lines 222-255), started at
loop index `i`: returns `(successCount, failures, emitted events)`.  A
successful marker increments the count and emits
`SYNC_PROGRESS {current: i+1, total}`; a caught error appends
`{markerId, error}` to `failures` and emits
`SYNC_ERROR {message: "Failed to sync marker <id>: <msg>"}`; either way the
loop continues with the rest of the candidates. -/
def syncLoop (w : World) (total : Nat) :
    List MarkerData → Nat → Nat × List SyncFailure × List SyncEvent
  | [], _ => (0, [], [])
  | marker :: rest, i =>
    let head : Nat × List SyncFailure × List SyncEvent :=
      match processMarker w marker with
      | .ok _ => (1, [], [SyncEvent.progress (i + 1) total])
      | .error e =>
        (0, [{ markerId := marker.id, error := e }],
          [SyncEvent.error ("Failed to sync marker " ++ toString marker.id ++ ": " ++ e)])
    let tail := syncLoop w total rest (i + 1)
    (head.1 + tail.1, head.2.1 ++ tail.2.1, head.2.2 ++ tail.2.2)

/-- The aggregate failure message of sync.ts lines 261-263:
`failures.map(f => "Marker <id>: <error>").join("\n")`. -/
def aggregateMessage (failures : List SyncFailure) : String :=
  String.intercalate "\n"
    (failures.map fun f => "Marker " ++ toString f.markerId ++ ": " ++ f.error)

/-- `syncAllMarkers` (sync.ts lines 188-278), returning the result
(`.error` models the `throw` on web, `.ok b` the returned boolean) together
with the ordered list of emitted events.  The outer `try`/`catch` turns a
throw from storage access or `JSON.parse` into a `SYNC_ERROR` emission and
a `false` return.  `!storedMarkersJson` is JavaScript truthiness, so a
stored empty string is treated like an absent key. -/
def syncAllMarkers (w : World) : Except String Bool × List SyncEvent :=
  if w.platformOS == "web" then
    (.error "Sync is not supported on web platform", [])
  else
    match w.getItem with
    | .error e => (.ok false, [SyncEvent.start, SyncEvent.error e])
    | .ok storedMarkersJson =>
      if !(jsTruthy storedMarkersJson) then
        (.ok true, [SyncEvent.start, SyncEvent.complete])
      else
        match w.parseMarkers (storedMarkersJson.getD "") with
        | .error e => (.ok false, [SyncEvent.start, SyncEvent.error e])
        | .ok markers =>
          if markers.length == 0 then
            (.ok true, [SyncEvent.start, SyncEvent.complete])
          else
            let completeMarkers := markers.filter (·.isComplete)
            let result := syncLoop w completeMarkers.length completeMarkers 0
            let failures := result.2.1
            if failures.length > 0 then
              (.ok false,
                SyncEvent.start :: result.2.2 ++ [SyncEvent.error (aggregateMessage failures)])
            else
              (.ok true, SyncEvent.start :: result.2.2 ++ [SyncEvent.complete])

/-! ## Marker mutation handlers of src/app/(tabs)/map.tsx

Each handler maps over the stored marker list, rebuilding the record whose
`id` matches the selected marker and recomputing `isComplete`; it then
persists the whole updated list.  The handlers below embed exactly the list
transformation each UI callback performs. -/

/-- `handleConnectionCountChange` (map.tsx lines 302-332). -/
def handleConnectionCountChange (markers : List MarkerData) (selectedId : Int)
    (connectionCount : Int) : List MarkerData :=
  markers.map fun marker =>
    if marker.id == selectedId then
      let isComplete := jsTruthy marker.centerPollImage
        && decide ((marker.connectionImages.length : Int) ≥ connectionCount)
      { marker with connectionCount := connectionCount, isComplete := isComplete }
    else marker

/-- The `currentCaptureTarget === 'centerPoll'` branch of
`handleCameraCapture` (map.tsx lines 339-358). -/
def handleCameraCaptureCenter (markers : List MarkerData) (selectedId : Int)
    (uri : String) : List MarkerData :=
  markers.map fun marker =>
    if marker.id == selectedId then
      let updatedMarker := { marker with centerPollImage := some uri }
      let isComplete := jsTruthy updatedMarker.centerPollImage
        && decide ((updatedMarker.connectionImages.length : Int) ≥ updatedMarker.connectionCount)
      { updatedMarker with isComplete := isComplete }
    else marker

/-- The `while (updatedImages.length <= connectionIndex) push("")` padding
loop (map.tsx lines 371-373, 527-529). -/
def padWithEmpty (l : List String) (index : Nat) : List String :=
  l ++ List.replicate (index + 1 - l.length) ""

/-- The connection-image branch of `handleCameraCapture`
(map.tsx lines 359-399): pad the found marker's image list up to the target
index, set the captured uri there, drop empty placeholders, and rebuild the
matching record; when no record matches the selected id the list is
returned unchanged. -/
def handleCameraCaptureConnection (markers : List MarkerData) (selectedId : Int)
    (connectionIndex : Nat) (uri : String) : List MarkerData :=
  match markers.find? (fun m => m.id == selectedId) with
  | none => markers
  | some markerToUpdate =>
    let updatedImages := (padWithEmpty markerToUpdate.connectionImages connectionIndex).set
      connectionIndex uri
    let cleanedImages := updatedImages.filter (fun img => !(img == ""))
    markers.map fun marker =>
      if marker.id == selectedId then
        let isComplete := jsTruthy marker.centerPollImage
          && decide ((cleanedImages.length : Int) ≥ marker.connectionCount)
        { marker with connectionImages := cleanedImages, isComplete := isComplete }
      else marker

/-- The marker-list update of `pickCenterPollImage` (map.tsx lines 472-495),
performed when the picker returns an asset: identical record rebuild to the
camera center-capture branch with the picked asset's uri. -/
def pickCenterPollImage (markers : List MarkerData) (selectedId : Int)
    (uri : String) : List MarkerData :=
  markers.map fun marker =>
    if marker.id == selectedId then
      let updatedMarker := { marker with centerPollImage := some uri }
      let isComplete := jsTruthy updatedMarker.centerPollImage
        && decide ((updatedMarker.connectionImages.length : Int) ≥ updatedMarker.connectionCount)
      { updatedMarker with isComplete := isComplete }
    else marker

/-- The marker-list update of `pickConnectionImage` (map.tsx lines 521-552):
like the camera connection branch, but the image list is taken from the
`selectedMarker` state object rather than looked up in the list. -/
def pickConnectionImage (markers : List MarkerData) (selectedMarker : MarkerData)
    (index : Nat) (uri : String) : List MarkerData :=
  let updatedImages := (padWithEmpty selectedMarker.connectionImages index).set index uri
  let cleanedImages := updatedImages.filter (fun img => !(img == ""))
  markers.map fun marker =>
    if marker.id == selectedMarker.id then
      let isComplete := jsTruthy marker.centerPollImage
        && decide ((cleanedImages.length : Int) ≥ marker.connectionCount)
      { marker with connectionImages := cleanedImages, isComplete := isComplete }
    else marker

/-- `removeConnection` (map.tsx lines 568-605): splice the image at the
selected index out of the `selectedMarker` state object's list and rebuild
the matching record with the shortened list. -/
def removeConnection (markers : List MarkerData) (selectedMarker : MarkerData)
    (index : Nat) : List MarkerData :=
  let updatedImages := selectedMarker.connectionImages.eraseIdx index
  markers.map fun marker =>
    if marker.id == selectedMarker.id then
      let isComplete := jsTruthy marker.centerPollImage
        && decide ((updatedImages.length : Int) ≥ marker.connectionCount)
      { marker with connectionImages := updatedImages, isComplete := isComplete }
    else marker

/-- The marker mutation operations of map.tsx that touch `centerPollImage`,
`connectionImages` or `connectionCount`, gathered for uniform statements
about the completion invariant. -/
inductive MutationOp where
  | countChange (selectedId : Int) (connectionCount : Int)
  | cameraCenter (selectedId : Int) (uri : String)
  | cameraConnection (selectedId : Int) (index : Nat) (uri : String)
  | pickCenter (selectedId : Int) (uri : String)
  | pickConnection (selectedMarker : MarkerData) (index : Nat) (uri : String)
  | removeConn (selectedMarker : MarkerData) (index : Nat)
deriving Repr

/-- Dispatch a mutation operation to its map.tsx handler. -/
def applyMutation (op : MutationOp) (markers : List MarkerData) : List MarkerData :=
  match op with
  | .countChange selectedId cc => handleConnectionCountChange markers selectedId cc
  | .cameraCenter selectedId uri => handleCameraCaptureCenter markers selectedId uri
  | .cameraConnection selectedId index uri =>
    handleCameraCaptureConnection markers selectedId index uri
  | .pickCenter selectedId uri => pickCenterPollImage markers selectedId uri
  | .pickConnection selectedMarker index uri =>
    pickConnectionImage markers selectedMarker index uri
  | .removeConn selectedMarker index => removeConnection markers selectedMarker index

/-- The id of the record a mutation operation targets. -/
def MutationOp.targetId : MutationOp → Int
  | .countChange selectedId _ => selectedId
  | .cameraCenter selectedId _ => selectedId
  | .cameraConnection selectedId _ _ => selectedId
  | .pickCenter selectedId _ => selectedId
  | .pickConnection selectedMarker _ _ => selectedMarker.id
  | .removeConn selectedMarker _ => selectedMarker.id

/-- The completion invariant of the marker record model:
`isComplete == Boolean(centerPollImage) && connectionImages.length >=
connectionCount`. -/
def completionOK (m : MarkerData) : Prop :=
  m.isComplete = (jsTruthy m.centerPollImage
    && decide ((m.connectionImages.length : Int) ≥ m.connectionCount))

instance (m : MarkerData) : Decidable (completionOK m) := by
  unfold completionOK; infer_instance

/-! ## Specification-side characterizations of the batch loop

`syncLoop` is the imperative accumulator loop of sync.ts; the functions
below give its per-element characterization (proved equal in
`syncLoop_eq`): which candidates succeed, which failure entries are
recorded, and which events are emitted. -/

/-- Whether processing one candidate marker runs to completion without a
caught error. -/
def succeeded (w : World) (m : MarkerData) : Bool :=
  match processMarker w m with
  | .ok _ => true
  | .error _ => false

/-- The number of candidates of `l` whose processing succeeds
(`successCount` of sync.ts line 218). -/
def successCountOf (w : World) (l : List MarkerData) : Nat :=
  l.countP (succeeded w)

/-- The failure entries the batch loop records for the candidates `l`, in
order: one `{markerId, error}` entry per failing candidate
(sync.ts lines 245-248). -/
def failuresOf (w : World) (l : List MarkerData) : List SyncFailure :=
  l.filterMap fun m =>
    match processMarker w m with
    | .error e => some { markerId := m.id, error := e }
    | .ok _ => none

/-- The events the batch loop emits for the candidates `l` when the loop
index starts at `i`: one event per candidate, in candidate order —
`SYNC_PROGRESS {current: position, total}` on success,
`SYNC_ERROR` on failure. -/
def perCandidateEvents (w : World) (total : Nat) :
    List MarkerData → Nat → List SyncEvent
  | [], _ => []
  | m :: rest, i =>
    (match processMarker w m with
      | .ok _ => SyncEvent.progress (i + 1) total
      | .error e =>
        SyncEvent.error ("Failed to sync marker " ++ toString m.id ++ ": " ++ e))
      :: perCandidateEvents w total rest (i + 1)

/-- Whether a bus event is a `SYNC_PROGRESS` notification. -/
def isProgressEvent : SyncEvent → Bool
  | .progress _ _ => true
  | _ => false

/-- The candidate-selection step of `syncAllMarkers`
(sync.ts line 215): `markers.filter(m => m.isComplete)`. -/
def selectSyncCandidates (markers : List MarkerData) : List MarkerData :=
  markers.filter (·.isComplete)

/-! ## Concrete inputs used as witnesses and counterexamples -/

/-- A stored marker that is complete and needs no connection images. -/
def mGood : MarkerData :=
  { id := 7, coordinate := { latitude := 1, longitude := 2 },
    centerPollImage := some "c.jpg", connectionImages := [],
    connectionCount := 0, isComplete := true }

/-- A world in which `mGood` is the only stored marker, its image is
readable, no sidecar exists, and the server answers every upload with
HTTP 200 and a body that does not contain the `✅` success indicator. -/
def wGood : World :=
  { platformOS := "android"
    getItem := .ok (some "[stored]")
    parseMarkers := fun s => if s == "[stored]" then .ok [mGood] else .error "unexpected key"
    fileExists := fun uri => uri == "c.jpg"
    readFile := fun uri => if uri == "c.jpg" then .ok "QkFTRTY0" else .error "missing file"
    parseJson := fun _ => .error "no sidecar"
    now := "2026-01-01T00:00:00.000Z"
    fetch := fun _ => .ok { ok := true, status := 200, body := "upload stored" } }

/-- A stored marker whose center image file is missing, so its upload
fails at the image-read step. -/
def mFail : MarkerData :=
  { id := 1, coordinate := { latitude := 0, longitude := 0 },
    centerPollImage := some "gone.jpg", connectionImages := [],
    connectionCount := 0, isComplete := true }

/-- A world in which `mFail` is the only stored marker and no file
exists, so the single candidate fails. -/
def wFail : World :=
  { platformOS := "android"
    getItem := .ok (some "[stored]")
    parseMarkers := fun s => if s == "[stored]" then .ok [mFail] else .error "unexpected key"
    fileExists := fun _ => false
    readFile := fun _ => .error "unreadable"
    parseJson := fun _ => .error "bad json"
    now := "2026-01-01T00:00:00.000Z"
    fetch := fun _ => .error "Network request failed" }

/-- A marker whose center image has a sidecar metadata file. -/
def mBadSidecar : MarkerData :=
  { id := 3, coordinate := { latitude := 4, longitude := 5 },
    centerPollImage := some "c.jpg", connectionImages := [],
    connectionCount := 0, isComplete := true }

/-- A world in which image `c.jpg` is readable but its sidecar
`c.jpg.json` holds malformed JSON, while image `d.jpg` is readable and has
no sidecar at all. -/
def wBadSidecar : World :=
  { platformOS := "android"
    getItem := .ok none
    parseMarkers := fun _ => .error "unused"
    fileExists := fun uri => uri == "c.jpg" || uri == "c.jpg.json" || uri == "d.jpg"
    readFile := fun uri =>
      if uri == "c.jpg" then .ok "QzY0"
      else if uri == "c.jpg.json" then .ok "not json"
      else if uri == "d.jpg" then .ok "RDY0"
      else .error "missing file"
    parseJson := fun _ => .error "Unexpected token o in JSON at position 1"
    now := "2026-03-03T00:00:00.000Z"
    fetch := fun _ => .error "unused" }

/-- A parsed sidecar carrying the `heading` form of the compass block
(the `SensorData` revision of imageCapture.ts lines 222-236) and a capture
timestamp, but no `magneticNorth` field. -/
def metaHeading : ImageMetadata :=
  { timestamp := some { utc := some "2025-05-05T05:05:05.000Z" }
    sensors := some { compass := some { magneticNorth := none, heading := some 42 } }
    device := none }

/-- A world in which image `b.jpg` is readable and its sidecar parses to
`metaHeading`. -/
def wHeadingSidecar : World :=
  { platformOS := "android"
    getItem := .ok none
    parseMarkers := fun _ => .error "unused"
    fileExists := fun uri => uri == "b.jpg" || uri == "b.jpg.json"
    readFile := fun uri =>
      if uri == "b.jpg" then .ok "QjY0"
      else if uri == "b.jpg.json" then .ok "sidecar body"
      else .error "missing file"
    parseJson := fun _ => .ok metaHeading
    now := "2026-04-04T00:00:00.000Z"
    fetch := fun _ => .error "unused" }

/-- A marker with one center image and two connection images. -/
def mFull : MarkerData :=
  { id := 5, coordinate := { latitude := 10, longitude := 20 },
    centerPollImage := some "c.jpg", connectionImages := ["b1.jpg", "b2.jpg"],
    connectionCount := 2, isComplete := true }

/-- A world in which all three image files of `mFull` are readable and no
sidecars exist. -/
def wFull : World :=
  { platformOS := "android"
    getItem := .ok none
    parseMarkers := fun _ => .error "unused"
    fileExists := fun uri => uri == "c.jpg" || uri == "b1.jpg" || uri == "b2.jpg"
    readFile := fun uri =>
      if uri == "c.jpg" then .ok "QzY0"
      else if uri == "b1.jpg" then .ok "QjE2NA"
      else if uri == "b2.jpg" then .ok "QjI2NA"
      else .error "missing file"
    parseJson := fun _ => .error "no sidecar"
    now := "2026-02-02T00:00:00.000Z"
    fetch := fun _ => .error "unused" }

/-- The payload `convertMarkerToUploadFormat` builds for `mFull` in
`wFull`. -/
def payloadFull : UploadPayload :=
  { markerId := "marker_5"
    timestamp := "2026-02-02T00:00:00.000Z"
    location := { latitude := 10, longitude := 20 }
    centerPole := some {
      url := "data:image/jpeg;base64,QzY0"
      metadata := CenterMetadata.stub "2026-02-02T00:00:00.000Z"
      deviceInfo := { model := "Android", manufacturer := "Unknown" }
      imageProperties := { width := 4032, height := 3024, format := "jpeg" } }
    branchImages := [
      { url := "data:image/jpeg;base64,QjE2NA", heading := 0,
        timestamp := "2026-02-02T00:00:00.000Z",
        deviceInfo := { model := "Android", manufacturer := "Unknown" },
        imageProperties := { width := 4032, height := 3024, format := "jpeg" },
        metadata := none },
      { url := "data:image/jpeg;base64,QjI2NA", heading := 0,
        timestamp := "2026-02-02T00:00:00.000Z",
        deviceInfo := { model := "Android", manufacturer := "Unknown" },
        imageProperties := { width := 4032, height := 3024, format := "jpeg" },
        metadata := none } ] }

/-- A world running on the web platform. -/
def wWeb : World :=
  { platformOS := "web"
    getItem := .ok (some "[stored]")
    parseMarkers := fun _ => .ok []
    fileExists := fun _ => false
    readFile := fun _ => .error "unused"
    parseJson := fun _ => .error "unused"
    now := "2026-01-01T00:00:00.000Z"
    fetch := fun _ => .error "unused" }

/-- A marker list exercising candidate selection: ids 1 and 3 complete,
id 2 incomplete. -/
def mSelA : MarkerData :=
  { id := 1, coordinate := { latitude := 0, longitude := 0 },
    centerPollImage := some "a.jpg", connectionImages := [],
    connectionCount := 0, isComplete := true }

/-- The incomplete middle marker of the selection example. -/
def mSelB : MarkerData :=
  { id := 2, coordinate := { latitude := 0, longitude := 0 },
    centerPollImage := none, connectionImages := [],
    connectionCount := 1, isComplete := false }

/-- The complete third marker of the selection example. -/
def mSelC : MarkerData :=
  { id := 3, coordinate := { latitude := 0, longitude := 0 },
    centerPollImage := some "b.jpg", connectionImages := [],
    connectionCount := 0, isComplete := true }

/-- A stored marker list used to exercise the mutation handlers: one
record with a center image, no connection images, and a declared count of
2. -/
def markersInv : List MarkerData :=
  [{ id := 1, coordinate := { latitude := 0, longitude := 0 },
     centerPollImage := some "c.jpg", connectionImages := [],
     connectionCount := 2, isComplete := false }]

/-! ## Helper lemmas -/

/-- The accumulator loop equals its per-element characterization: the
success count, the recorded failures and the emitted events are each
obtained candidate by candidate, in order. -/
theorem syncLoop_eq (w : World) (total : Nat) (l : List MarkerData) (i : Nat) :
    syncLoop w total l i
      = (successCountOf w l, failuresOf w l, perCandidateEvents w total l i) := by
  induction l generalizing i with
  | nil => simp [syncLoop, successCountOf, failuresOf, perCandidateEvents]
  | cons m rest ih =>
    cases h : processMarker w m with
    | ok u =>
      simp [syncLoop, ih, successCountOf, failuresOf, perCandidateEvents,
        List.countP_cons, succeeded, h, Nat.add_comm]
    | error e =>
      simp [syncLoop, ih, successCountOf, failuresOf, perCandidateEvents,
        List.countP_cons, succeeded, h]

/-- Recorded failures distribute over list concatenation. -/
theorem failuresOf_append (w : World) (l₁ l₂ : List MarkerData) :
    failuresOf w (l₁ ++ l₂) = failuresOf w l₁ ++ failuresOf w l₂ :=
  List.filterMap_append l₁ l₂ _

/-- Per-candidate events distribute over list concatenation, the second
part starting at the shifted loop index. -/
theorem perCandidateEvents_append (w : World) (total : Nat) (l₁ l₂ : List MarkerData)
    (i : Nat) :
    perCandidateEvents w total (l₁ ++ l₂) i
      = perCandidateEvents w total l₁ i ++ perCandidateEvents w total l₂ (i + l₁.length) := by
  induction l₁ generalizing i with
  | nil => simp [perCandidateEvents]
  | cons m rest ih =>
    simp only [List.cons_append, perCandidateEvents, List.length_cons]
    have harith : i + (rest.length + 1) = i + 1 + rest.length := by omega
    rw [harith]
    congr 1
    exact ih (i + 1)

/-- Exactly one progress event is emitted per succeeded candidate. -/
theorem perCandidateEvents_progress_count (w : World) (total : Nat)
    (l : List MarkerData) (i : Nat) :
    ((perCandidateEvents w total l i).filter isProgressEvent).length
      = successCountOf w l := by
  induction l generalizing i with
  | nil => simp [perCandidateEvents, successCountOf]
  | cons m rest ih =>
    cases h : processMarker w m with
    | ok u =>
      simp [perCandidateEvents, successCountOf, List.countP_cons, succeeded, h,
        List.filter, isProgressEvent, ih, Nat.add_comm]
    | error e =>
      simp [perCandidateEvents, successCountOf, List.countP_cons, succeeded, h,
        List.filter, isProgressEvent, ih]

/-- No failures are recorded for a candidate list exactly when every
candidate succeeds. -/
theorem failuresOf_eq_nil_iff (w : World) (l : List MarkerData) :
    failuresOf w l = [] ↔ ∀ m ∈ l, succeeded w m = true := by
  rw [failuresOf, List.filterMap_eq_nil_iff]
  constructor
  · intro h m hm
    have := h m hm
    unfold succeeded
    cases hp : processMarker w m
    · rw [hp] at this; simp at this
    · rfl
  · intro h m hm
    have := h m hm
    unfold succeeded at this
    cases hp : processMarker w m
    · rw [hp] at this; simp at this
    · rfl

/-- When every candidate succeeds, no error event is emitted by the loop. -/
theorem perCandidateEvents_no_error (w : World) (total : Nat) (l : List MarkerData)
    (i : Nat) (h : ∀ m ∈ l, succeeded w m = true) (msg : String) :
    SyncEvent.error msg ∉ perCandidateEvents w total l i := by
  induction l generalizing i with
  | nil => simp [perCandidateEvents]
  | cons m rest ih =>
    have hm := h m (by simp)
    unfold succeeded at hm
    simp only [perCandidateEvents]
    cases hp : processMarker w m
    · rw [hp] at hm; simp at hm
    · simp only [hp, List.mem_cons]
      rintro (hc | hc)
      · exact SyncEvent.noConfusion hc
      · exact ih (i + 1) (fun m' hm' => h m' (List.mem_cons_of_mem _ hm')) hc

/-- Every recorded failure entry carries the id of some candidate in the
processed list. -/
theorem failuresOf_mem (w : World) (l : List MarkerData) (f : SyncFailure)
    (h : f ∈ failuresOf w l) : ∃ m, m ∈ l ∧ m.id = f.markerId := by
  rw [failuresOf, List.mem_filterMap] at h
  obtain ⟨m, hm, hf⟩ := h
  refine ⟨m, hm, ?_⟩
  cases hp : processMarker w m
  · rw [hp] at hf
    cases hf
    rfl
  · rw [hp] at hf; simp at hf

/-- A successful `Promise.all` over the branch packagings yields one entry
per connection image, and the entry at position `j` is the packaging of the
image at position `j` with loop index `idx + j`. -/
theorem packBranchImages_len_get (w : World) (imgs : List String) (idx : Nat)
    (ps : List PackagedImage) (h : packBranchImages w imgs idx = .ok ps) :
    ps.length = imgs.length ∧
      ∀ j (hj : j < imgs.length) (hj' : j < ps.length),
        packBranchImage w (imgs.get ⟨j, hj⟩) (idx + j) = .ok (ps.get ⟨j, hj'⟩) := by
  induction imgs generalizing idx ps with
  | nil =>
    simp only [packBranchImages] at h
    cases h
    exact ⟨rfl, fun j hj => absurd hj (by simp)⟩
  | cons img rest ih =>
    simp only [packBranchImages] at h
    cases h1 : packBranchImage w img idx with
    | error e => rw [h1] at h; cases h
    | ok p =>
      rw [h1] at h
      cases h2 : packBranchImages w rest (idx + 1) with
      | error e => rw [h2] at h; cases h
      | ok ps' =>
        rw [h2] at h
        cases h
        obtain ⟨hlen, hget⟩ := ih (idx + 1) ps' h2
        refine ⟨by simp [hlen], ?_⟩
        intro j hj hj'
        cases j with
        | zero => simpa using h1
        | succ j' =>
          have harith : idx + (j' + 1) = idx + 1 + j' := by omega
          simp only [List.get, harith]
          exact hget j' (by simpa using hj) (by simpa using hj')

/-- On a non-web platform, with the stored marker array present, non-empty
and parseable, a sync pass runs the batch loop over the complete markers
and reports: overall success exactly when no candidate failed, the
per-candidate events in order, and a final completion or aggregate-error
event. -/
theorem syncAllMarkers_run (w : World) (json : String) (markers : List MarkerData)
    (hweb : ¬ w.platformOS = "web") (hget : w.getItem = .ok (some json))
    (hjson : ¬ json = "") (hparse : w.parseMarkers json = .ok markers) :
    syncAllMarkers w
      = (.ok (failuresOf w (selectSyncCandidates markers)).isEmpty,
         SyncEvent.start ::
           (perCandidateEvents w (selectSyncCandidates markers).length
              (selectSyncCandidates markers) 0
            ++ [if (failuresOf w (selectSyncCandidates markers)).isEmpty
                then SyncEvent.complete
                else SyncEvent.error
                  (aggregateMessage (failuresOf w (selectSyncCandidates markers)))])) := by
  have hwebB : (w.platformOS == "web") = false := by
    simp [hweb]
  have hjsonB : (json == "") = false := by
    simp [hjson]
  rw [syncAllMarkers, hwebB, hget]
  simp only [Bool.false_eq_true, if_false, jsTruthy, hjsonB, Bool.not_false, if_true,
    Option.getD_some, hparse]
  by_cases hm : markers = []
  · subst hm
    simp [selectSyncCandidates, failuresOf, perCandidateEvents]
  · have hlen : (markers.length == 0) = false := by
      simp [List.length_eq_zero, hm]
    simp only [hlen, Bool.false_eq_true, if_false, syncLoop_eq]
    by_cases hf : failuresOf w (markers.filter (·.isComplete)) = []
    · simp [selectSyncCandidates, hf]
    · have hpos : 0 < (failuresOf w (markers.filter (·.isComplete))).length :=
        List.length_pos.mpr hf
      have hne : (failuresOf w (markers.filter (·.isComplete))).isEmpty = false := by
        simp [List.isEmpty_iff, hf]
      simp [selectSyncCandidates, hne, hpos, hf]

/-! ## Claim theorems -/

/-- C1: the specification demands that a 2xx upload response whose body
lacks the `✅` success token count the marker as a failed upload.  The code
contradicts this (and the stated purpose of `uploadMarkerData`'s boolean
result): at a world where the only stored, complete marker is accepted
with HTTP 200 and the body `upload stored`, `uploadMarkerData` reports
`false`, yet `syncAllMarkers` records no failure, emits a progress and a
completion event, and returns overall success. -/
theorem c1_two_xx_without_token_counted_as_success :
    uploadMarkerData wGood mGood = .ok false
    ∧ failuresOf wGood [mGood] = []
    ∧ syncAllMarkers wGood
        = (.ok true, [SyncEvent.start, SyncEvent.progress 1 1, SyncEvent.complete]) :=
  ⟨rfl, rfl, rfl⟩

/-- C3: the batch loop processes every candidate exactly once, in order:
its result is the per-candidate characterization (success count, one
`{markerId, reason}` failure entry per failing candidate, one event per
candidate), and both failures and events over a concatenation split into
the parts contributed by each half — so a failure anywhere in the first
part never prevents the second part from being attempted, and no
per-marker error escapes the loop (its result type carries no exception). -/
theorem c3_per_marker_failure_isolation (w : World) (total : Nat)
    (l₁ l₂ : List MarkerData) (i : Nat) :
    syncLoop w total (l₁ ++ l₂) i
      = (successCountOf w (l₁ ++ l₂), failuresOf w (l₁ ++ l₂),
         perCandidateEvents w total (l₁ ++ l₂) i)
    ∧ failuresOf w (l₁ ++ l₂) = failuresOf w l₁ ++ failuresOf w l₂
    ∧ perCandidateEvents w total (l₁ ++ l₂) i
        = perCandidateEvents w total l₁ i
          ++ perCandidateEvents w total l₂ (i + l₁.length) :=
  ⟨syncLoop_eq w total (l₁ ++ l₂) i, failuresOf_append w l₁ l₂,
   perCandidateEvents_append w total l₁ l₂ i⟩

/-- C10: on the web platform `syncAllMarkers` throws
`Sync is not supported on web platform` without emitting any event; the
statement holds for every world with `platformOS = "web"`, whatever its
storage contains, so the throw happens before storage is read. -/
theorem c10_web_platform_throws (w : World) (h : w.platformOS = "web") :
    syncAllMarkers w = (.error "Sync is not supported on web platform", []) := by
  simp [syncAllMarkers, h]

/-- Witness for C10 at a concrete web-platform world. -/
theorem c10_web_platform_throws_witness :
    syncAllMarkers wWeb = (.error "Sync is not supported on web platform", []) :=
  c10_web_platform_throws wWeb rfl

/-- C4 (counterexample): the claim says the progress notification fires
after every candidate, success or failure, hence exactly `n` times.  At a
world whose single stored candidate fails (its image file is missing), the
sync pass emits zero progress events while the candidate count is one. -/
theorem c4_counterexample :
    wFail.getItem = .ok (some "[stored]")
    ∧ wFail.parseMarkers "[stored]" = .ok [mFail]
    ∧ (selectSyncCandidates [mFail]).length = 1
    ∧ ((syncAllMarkers wFail).2.filter isProgressEvent).length = 0
    ∧ (0 : Nat) ≠ 1 :=
  ⟨rfl, rfl, rfl, rfl, by decide⟩

/-- C4 (amended): during a sync pass the loop emits exactly one event per
candidate, in order — `SYNC_PROGRESS {current: position, total}` only when
the candidate succeeded, `SYNC_ERROR` when it failed — so the progress
notification fires once per succeeded candidate, not once per candidate. -/
theorem c4_amended_progress_only_on_success (w : World) (json : String)
    (markers : List MarkerData) (hweb : ¬ w.platformOS = "web")
    (hget : w.getItem = .ok (some json)) (hjson : ¬ json = "")
    (hparse : w.parseMarkers json = .ok markers) :
    (syncAllMarkers w).2
      = SyncEvent.start ::
          (perCandidateEvents w (selectSyncCandidates markers).length
             (selectSyncCandidates markers) 0
           ++ [if (failuresOf w (selectSyncCandidates markers)).isEmpty
               then SyncEvent.complete
               else SyncEvent.error
                 (aggregateMessage (failuresOf w (selectSyncCandidates markers)))])
    ∧ ((syncAllMarkers w).2.filter isProgressEvent).length
        = successCountOf w (selectSyncCandidates markers) := by
  have hrun := syncAllMarkers_run w json markers hweb hget hjson hparse
  refine ⟨by rw [hrun], ?_⟩
  rw [hrun]
  cases hf : (failuresOf w (selectSyncCandidates markers)).isEmpty <;>
    simp [hf, List.filter_append, isProgressEvent,
      perCandidateEvents_progress_count]

/-- Witness for the amended C4 at the concrete failing world: the trace is
the start event, the per-candidate error event, and the aggregate error
event, with zero progress events for zero successes. -/
theorem c4_amended_witness :
    (syncAllMarkers wFail).2
      = SyncEvent.start ::
          (perCandidateEvents wFail (selectSyncCandidates [mFail]).length
             (selectSyncCandidates [mFail]) 0
           ++ [if (failuresOf wFail (selectSyncCandidates [mFail])).isEmpty
               then SyncEvent.complete
               else SyncEvent.error
                 (aggregateMessage (failuresOf wFail (selectSyncCandidates [mFail])))])
    ∧ ((syncAllMarkers wFail).2.filter isProgressEvent).length
        = successCountOf wFail (selectSyncCandidates [mFail]) :=
  c4_amended_progress_only_on_success wFail "[stored]" [mFail]
    (by decide) rfl (by decide) rfl

/-- C5 (counterexample): the claim says packaging succeeds even when the
sidecar holds malformed JSON.  At a world where the center image `c.jpg`
is readable but its sidecar `c.jpg.json` exists and fails to parse, the
marker's packaging aborts with the wrapped parse error. -/
theorem c5_counterexample :
    fileToBase64 wBadSidecar "c.jpg" = .ok "data:image/jpeg;base64,QzY0"
    ∧ wBadSidecar.fileExists "c.jpg.json" = true
    ∧ convertMarkerToUploadFormat wBadSidecar mBadSidecar
        = .error "Failed to convert center poll image: Unexpected token o in JSON at position 1" :=
  ⟨rfl, rfl, rfl⟩

/-- C5 (amended): for a readable image, an absent sidecar never aborts
packaging — the packaged image falls back to heading 0, the current
timestamp, platform device info and no metadata — but a sidecar that is
present and malformed (its read or parse throws) aborts the containing
marker's packaging with a wrapped error. -/
theorem c5_amended_sidecar_handling (w : World) (img : String) (index : Nat)
    (u content err : String) :
    (w.fileExists (img ++ ".json") = false → fileToBase64 w img = .ok u →
      packBranchImage w img index = .ok
        { url := u, heading := 0, timestamp := w.now,
          deviceInfo := { model := platformModel w, manufacturer := "Unknown" },
          imageProperties := { width := 4032, height := 3024, format := "jpeg" },
          metadata := none })
    ∧ (w.fileExists (img ++ ".json") = false → fileToBase64 w img = .ok u →
      processCenterImage w img = .ok (u, none))
    ∧ (w.fileExists (img ++ ".json") = true → w.readFile (img ++ ".json") = .ok content →
      w.parseJson content = .error err → fileToBase64 w img = .ok u →
      packBranchImage w img index
        = .error ("Failed to convert branch image " ++ toString (index + 1) ++ ": " ++ err))
    ∧ (w.fileExists (img ++ ".json") = true → w.readFile (img ++ ".json") = .ok content →
      w.parseJson content = .error err → fileToBase64 w img = .ok u →
      processCenterImage w img
        = .error ("Failed to convert center poll image: " ++ err)) := by
  refine ⟨?_, ?_, ?_, ?_⟩
  · intro h1 h2
    simp [packBranchImage, readSidecar, h1, h2]
  · intro h1 h2
    simp [processCenterImage, readSidecar, h1, h2]
  · intro h1 h2 h3 h4
    simp [packBranchImage, readSidecar, h1, h2, h3, h4]
  · intro h1 h2 h3 h4
    simp [processCenterImage, readSidecar, h1, h2, h3, h4]

/-- Witness for the amended C5: in the concrete world, the sidecar-less
image `d.jpg` packages with defaults while the image `c.jpg` with a
malformed sidecar aborts. -/
theorem c5_amended_witness :
    packBranchImage wBadSidecar "d.jpg" 0 = .ok
      { url := "data:image/jpeg;base64,RDY0", heading := 0,
        timestamp := "2026-03-03T00:00:00.000Z",
        deviceInfo := { model := "Android", manufacturer := "Unknown" },
        imageProperties := { width := 4032, height := 3024, format := "jpeg" },
        metadata := none }
    ∧ packBranchImage wBadSidecar "c.jpg" 1
        = .error "Failed to convert branch image 2: Unexpected token o in JSON at position 1" :=
  ⟨(c5_amended_sidecar_handling wBadSidecar "d.jpg" 0 "data:image/jpeg;base64,RDY0" "" "").1
      rfl rfl,
   (c5_amended_sidecar_handling wBadSidecar "c.jpg" 1 "data:image/jpeg;base64,QzY0"
      "not json" "Unexpected token o in JSON at position 1").2.2.1 rfl rfl rfl rfl⟩

/-- C6: on a non-web platform, an empty store yields immediate overall
success with only the start and completion events; when the store loads
and parses, the pass returns overall success exactly when no candidate
failed, in which case the completion event ends the trace and no failure
notification appears anywhere in it, and otherwise returns overall failure
with a single aggregate failure event, listing every failing marker's id
and reason, ending the trace. -/
theorem c6_outcome_iff_no_candidate_failed (w : World) (json : String)
    (markers : List MarkerData) (hweb : ¬ w.platformOS = "web") :
    (w.getItem = .ok none →
      syncAllMarkers w = (.ok true, [SyncEvent.start, SyncEvent.complete]))
    ∧ (w.getItem = .ok (some json) → ¬ json = "" → w.parseMarkers json = .ok markers →
        (syncAllMarkers w).1
            = .ok (failuresOf w (selectSyncCandidates markers)).isEmpty
        ∧ (failuresOf w (selectSyncCandidates markers) = [] →
            (syncAllMarkers w).2
              = SyncEvent.start ::
                  (perCandidateEvents w (selectSyncCandidates markers).length
                     (selectSyncCandidates markers) 0 ++ [SyncEvent.complete])
            ∧ ∀ msg, SyncEvent.error msg ∉ (syncAllMarkers w).2)
        ∧ (¬ failuresOf w (selectSyncCandidates markers) = [] →
            (syncAllMarkers w).2
              = SyncEvent.start ::
                  (perCandidateEvents w (selectSyncCandidates markers).length
                     (selectSyncCandidates markers) 0
                   ++ [SyncEvent.error
                        (aggregateMessage
                          (failuresOf w (selectSyncCandidates markers)))]))) := by
  constructor
  · intro hget
    have hwebB : (w.platformOS == "web") = false := by simp [hweb]
    rw [syncAllMarkers, hwebB, hget]
    simp [jsTruthy]
  · intro hget hjson hparse
    have hrun := syncAllMarkers_run w json markers hweb hget hjson hparse
    refine ⟨by rw [hrun], ?_, ?_⟩
    · intro hf
      have hfe : (failuresOf w (selectSyncCandidates markers)).isEmpty = true := by
        simp [List.isEmpty_iff, hf]
      refine ⟨by rw [hrun, hfe]; simp, ?_⟩
      intro msg hmem
      rw [hrun, hfe] at hmem
      simp only [eq_self_iff_true, if_true, List.mem_cons, List.mem_append,
        List.mem_singleton] at hmem
      rcases hmem with hmem | hmem | hmem | hmem
      · exact SyncEvent.noConfusion hmem
      · exact perCandidateEvents_no_error w _ _ 0
          ((failuresOf_eq_nil_iff w _).mp hf) msg hmem
      · exact SyncEvent.noConfusion hmem
      · exact absurd hmem (List.not_mem_nil _)
    · intro hf
      have hfe : (failuresOf w (selectSyncCandidates markers)).isEmpty = false := by
        simp [List.isEmpty_iff, hf]
      rw [hrun, hfe]
      simp

/-- Witness for C6 at the concrete world whose single stored marker
uploads without a caught error: the pass reports overall success. -/
theorem c6_witness :
    (syncAllMarkers wGood).1
      = .ok (failuresOf wGood (selectSyncCandidates [mGood])).isEmpty :=
  ((c6_outcome_iff_no_candidate_failed wGood "[stored]" [mGood] (by decide)).2
    rfl (by decide) rfl).1

/-- C7 (counterexample): the claim says the packaged heading comes from
`metadata.sensors.compass.heading`.  At a world whose sidecar parses to
metadata with `compass.heading = 42` (and no `magneticNorth`), the
packaged image carries heading 0, not 42. -/
theorem c7_counterexample :
    packBranchImage wHeadingSidecar "b.jpg" 0
      = .ok { url := "data:image/jpeg;base64,QjY0", heading := 0,
              timestamp := "2025-05-05T05:05:05.000Z",
              deviceInfo := { model := "Android", manufacturer := "Unknown" },
              imageProperties := { width := 4032, height := 3024, format := "jpeg" },
              metadata := some metaHeading }
    ∧ (metaHeading.sensors.bind (·.compass)).bind (·.heading) = some 42
    ∧ (0 : Int) ≠ 42 :=
  ⟨rfl, rfl, by decide⟩

/-- C7 (amended): for an image packaged with a present and valid sidecar,
the packaged heading equals `metadata.sensors.compass.magneticNorth` when
that field is defined and 0 otherwise, and the packaged timestamp equals
`metadata.timestamp.utc` when defined and the current time otherwise. -/
theorem c7_amended_heading_from_magnetic_north (w : World) (img : String)
    (index : Nat) (content u : String) (m : ImageMetadata)
    (hex : w.fileExists (img ++ ".json") = true)
    (hread : w.readFile (img ++ ".json") = .ok content)
    (hparse : w.parseJson content = .ok m)
    (himg : fileToBase64 w img = .ok u) :
    packBranchImage w img index = .ok
      { url := u
        heading := ((m.sensors.bind (·.compass)).bind (·.magneticNorth)).getD 0
        timestamp := (m.timestamp.bind (·.utc)).getD w.now
        deviceInfo := { model := (m.device.bind (·.model)).getD (platformModel w),
                        manufacturer := (m.device.bind (·.platform)).getD "Unknown" }
        imageProperties := { width := 4032, height := 3024, format := "jpeg" }
        metadata := some m } := by
  simp [packBranchImage, readSidecar, hex, hread, hparse, himg]

/-- Witness for the amended C7 at the concrete sidecar world: the
magnetic-north field is absent, so the heading defaults to 0 while the
sidecar's utc timestamp is used. -/
theorem c7_amended_witness :
    packBranchImage wHeadingSidecar "b.jpg" 3 = .ok
      { url := "data:image/jpeg;base64,QjY0", heading := 0,
        timestamp := "2025-05-05T05:05:05.000Z",
        deviceInfo := { model := "Android", manufacturer := "Unknown" },
        imageProperties := { width := 4032, height := 3024, format := "jpeg" },
        metadata := some metaHeading } :=
  c7_amended_heading_from_magnetic_north wHeadingSidecar "b.jpg" 3 "sidecar body"
    "data:image/jpeg;base64,QjY0" metaHeading rfl rfl rfl rfl

/-- C8: candidate selection returns a subsequence of the stored records
(order preserved), a record is selected exactly when it is stored and
complete, and every failure recorded by a pass over the selection comes
from a stored complete marker — incomplete markers are skipped silently,
never reported as errors. -/
theorem c8_candidate_selection (l : List MarkerData) (m : MarkerData) :
    (selectSyncCandidates l).Sublist l
    ∧ (m ∈ selectSyncCandidates l ↔ m ∈ l ∧ m.isComplete = true)
    ∧ (∀ w f, f ∈ failuresOf w (selectSyncCandidates l) →
        ∃ m', m' ∈ l ∧ m'.isComplete = true ∧ m'.id = f.markerId) := by
  refine ⟨List.filter_sublist l, ?_, ?_⟩
  · simp [selectSyncCandidates, List.mem_filter]
  · intro w f hf
    obtain ⟨m', hm', hid⟩ := failuresOf_mem w _ f hf
    rw [selectSyncCandidates, List.mem_filter] at hm'
    exact ⟨m', hm'.1, hm'.2, hid⟩

/-- Witness for C8 at the three-marker example list: the complete first
marker is selected, the incomplete second one is not. -/
theorem c8_witness :
    mSelA ∈ selectSyncCandidates [mSelA, mSelB, mSelC]
    ∧ mSelB ∉ selectSyncCandidates [mSelA, mSelB, mSelC] :=
  ⟨(c8_candidate_selection [mSelA, mSelB, mSelC] mSelA).2.1.mpr ⟨by decide, rfl⟩,
   fun h => by
     have hc := ((c8_candidate_selection [mSelA, mSelB, mSelC] mSelB).2.1.mp h).2
     exact absurd hc (by decide)⟩

/-- C9: a successfully built payload carries `markerId = "marker_" + id`,
the record's coordinate as its location, one `branchImages` entry per
connection image — the entry at position `j` being precisely the packaging
of the connection image at position `j` — and a non-null `centerPole`
exactly when the record's center image is set (truthy). -/
theorem c9_payload_shape (w : World) (marker : MarkerData) (payload : UploadPayload)
    (h : convertMarkerToUploadFormat w marker = .ok payload) :
    payload.markerId = "marker_" ++ toString marker.id
    ∧ payload.location = marker.coordinate
    ∧ payload.branchImages.length = marker.connectionImages.length
    ∧ (∀ j (hj : j < marker.connectionImages.length)
         (hj' : j < payload.branchImages.length),
        packBranchImage w (marker.connectionImages.get ⟨j, hj⟩) j
          = .ok (payload.branchImages.get ⟨j, hj'⟩))
    ∧ payload.centerPole.isSome = jsTruthy marker.centerPollImage := by
  cases ht : jsTruthy marker.centerPollImage with
  | false =>
    cases hb : packBranchImages w marker.connectionImages 0 with
    | error e =>
      simp only [convertMarkerToUploadFormat, ht, hb, Bool.false_eq_true, if_false] at h
      exact Except.noConfusion h
    | ok bs =>
      simp only [convertMarkerToUploadFormat, ht, hb, Bool.false_eq_true, if_false,
        Except.ok.injEq] at h
      obtain ⟨hlen, hget⟩ := packBranchImages_len_get w marker.connectionImages 0 bs hb
      subst h
      refine ⟨rfl, rfl, hlen, ?_, rfl⟩
      intro j hj hj'
      have := hget j hj hj'
      simpa using this
  | true =>
    cases hc : processCenterImage w (marker.centerPollImage.getD "") with
    | error e =>
      simp only [convertMarkerToUploadFormat, ht, hc, if_true] at h
      exact Except.noConfusion h
    | ok pr =>
      obtain ⟨b, cm⟩ := pr
      cases hb : packBranchImages w marker.connectionImages 0 with
      | error e =>
        simp only [convertMarkerToUploadFormat, ht, hc, hb, if_true] at h
        exact Except.noConfusion h
      | ok bs =>
        simp only [convertMarkerToUploadFormat, ht, hc, hb, if_true,
          Except.ok.injEq] at h
        obtain ⟨hlen, hget⟩ := packBranchImages_len_get w marker.connectionImages 0 bs hb
        subst h
        refine ⟨rfl, rfl, hlen, ?_, rfl⟩
        intro j hj hj'
        have := hget j hj hj'
        simpa using this

/-- Witness for C9 at the concrete marker with one center and two
connection images: the built payload has the expected identifier,
location, branch count and a non-null center pole. -/
theorem c9_witness :
    payloadFull.markerId = "marker_" ++ toString mFull.id
    ∧ payloadFull.location = mFull.coordinate
    ∧ payloadFull.branchImages.length = mFull.connectionImages.length
    ∧ payloadFull.centerPole.isSome = jsTruthy mFull.centerPollImage := by
  have h := c9_payload_shape wFull mFull payloadFull rfl
  exact ⟨h.1, h.2.1, h.2.2.1, h.2.2.2.2⟩

/-- C2: every marker mutation handler of the map screen — changing the
connection count, setting or replacing the center image (camera or
picker), setting or replacing a connection image (camera or picker), or
removing a connection image — persists the mutated record with
`isComplete` recomputed as
`Boolean(centerPollImage) && connectionImages.length >= connectionCount`;
no handler sets `isComplete` independently of this formula. -/
theorem c2_mutations_preserve_completion (op : MutationOp) (markers : List MarkerData)
    (m' : MarkerData) (hmem : m' ∈ applyMutation op markers)
    (hid : m'.id = op.targetId) : completionOK m' := by
  cases op with
  | countChange selectedId cc =>
    simp only [applyMutation, handleConnectionCountChange, List.mem_map] at hmem
    obtain ⟨m, hm, hfm⟩ := hmem
    by_cases hb : m.id = selectedId
    · subst hfm
      rw [if_pos (by simp [hb])]
      simp [completionOK]
    · subst hfm
      simp only [MutationOp.targetId] at hid
      rw [if_neg (by simp [hb])] at hid
      exact absurd hid hb
  | cameraCenter selectedId uri =>
    simp only [applyMutation, handleCameraCaptureCenter, List.mem_map] at hmem
    obtain ⟨m, hm, hfm⟩ := hmem
    by_cases hb : m.id = selectedId
    · subst hfm
      rw [if_pos (by simp [hb])]
      simp [completionOK]
    · subst hfm
      simp only [MutationOp.targetId] at hid
      rw [if_neg (by simp [hb])] at hid
      exact absurd hid hb
  | cameraConnection selectedId index uri =>
    simp only [applyMutation, handleCameraCaptureConnection] at hmem
    cases hfind : markers.find? (fun m => m.id == selectedId) with
    | none =>
      simp only [hfind] at hmem
      have hnone := List.find?_eq_none.mp hfind m' hmem
      simp only [MutationOp.targetId] at hid
      simp [hid] at hnone
    | some mt =>
      simp only [hfind, List.mem_map] at hmem
      obtain ⟨m, hm, hfm⟩ := hmem
      by_cases hb : m.id = selectedId
      · subst hfm
        rw [if_pos (by simp [hb])]
        simp [completionOK]
      · subst hfm
        simp only [MutationOp.targetId] at hid
        rw [if_neg (by simp [hb])] at hid
        exact absurd hid hb
  | pickCenter selectedId uri =>
    simp only [applyMutation, pickCenterPollImage, List.mem_map] at hmem
    obtain ⟨m, hm, hfm⟩ := hmem
    by_cases hb : m.id = selectedId
    · subst hfm
      rw [if_pos (by simp [hb])]
      simp [completionOK]
    · subst hfm
      simp only [MutationOp.targetId] at hid
      rw [if_neg (by simp [hb])] at hid
      exact absurd hid hb
  | pickConnection selectedMarker index uri =>
    simp only [applyMutation, pickConnectionImage, List.mem_map] at hmem
    obtain ⟨m, hm, hfm⟩ := hmem
    by_cases hb : m.id = selectedMarker.id
    · subst hfm
      rw [if_pos (by simp [hb])]
      simp [completionOK]
    · subst hfm
      simp only [MutationOp.targetId] at hid
      rw [if_neg (by simp [hb])] at hid
      exact absurd hid hb
  | removeConn selectedMarker index =>
    simp only [applyMutation, removeConnection, List.mem_map] at hmem
    obtain ⟨m, hm, hfm⟩ := hmem
    by_cases hb : m.id = selectedMarker.id
    · subst hfm
      rw [if_pos (by simp [hb])]
      simp [completionOK]
    · subst hfm
      simp only [MutationOp.targetId] at hid
      rw [if_neg (by simp [hb])] at hid
      exact absurd hid hb

/-- Witness for C2: changing the connection count of the stored example
marker to 0 persists it with `isComplete` recomputed to true, satisfying
the completion formula. -/
theorem c2_witness :
    completionOK
      { id := 1, coordinate := { latitude := 0, longitude := 0 },
        centerPollImage := some "c.jpg", connectionImages := [],
        connectionCount := 0, isComplete := true } :=
  c2_mutations_preserve_completion (.countChange 1 0) markersInv
    { id := 1, coordinate := { latitude := 0, longitude := 0 },
      centerPollImage := some "c.jpg", connectionImages := [],
      connectionCount := 0, isComplete := true } (by decide) rfl
